import Mathlib

/-!
Shallow embedding of the conversational-session orchestration layer of
`src/app7.py` (repository Utkarshk021/personal-bot), together with proofs
of the spec's claims about it.

Modelling conventions:
* Python ints are `Nat` (the counters involved never go negative).
* The remote service (OpenAI threads API wrapped by `safe_api_call`) is an
  environment record supplying the outcome of each retry-wrapped remote
  call; an `Except.error msg` models the `APIError` raised by
  `safe_api_call` after exhausting retries.
* The unbounded `while run.status != completed` polling loop is embedded
  with explicit fuel; a `fuelOut` result at every fuel value models
  non-termination of the source loop.
* `time.sleep` calls are recorded in traces rather than performed.
-/

namespace App7

/-- Constant from app7.py line 12. -/
def MAX_RETRIES : Nat := 3

/-- Constant from app7.py line 13 (seconds slept between retry attempts). -/
def RETRY_DELAY : Nat := 2

/-- Constant from app7.py line 16 (question limit per session). -/
def MAX_QUESTIONS_PER_SESSION : Nat := 500

/-- One transcript entry, mirroring the Python dict
`\x7b"role": ..., "content": ...\x7d` appended to `state.messages`. -/
structure ChatMessage where
  role : String
  content : String
deriving DecidableEq, Repr

/-- The `SessionState` class of app7.py lines 22-36, field for field. -/
structure SessionState where
  start_chat : Bool
  thread_id : Option String
  buttons_shown : Bool
  resume_text : String
  job_description_text : String
  job_type : String
  messages : List ChatMessage
  processing : Bool
  job_input_method : String
  job_url : String
  resume_input_method : String
  assistant_is_typing : Bool
  question_count : Nat
deriving DecidableEq, Repr

/-- `SessionState.__init__` (app7.py lines 23-36). -/
def SessionState.init : SessionState where
  start_chat := false
  thread_id := none
  buttons_shown := false
  resume_text := ""
  job_description_text := ""
  job_type := ""
  messages := []
  processing := false
  job_input_method := "url"
  job_url := ""
  resume_input_method := "paste"
  assistant_is_typing := false
  question_count := 0

/-- `reset_chat` (app7.py lines 356-366): sets ten fields to their initial
values and touches nothing else. -/
def reset_chat (s : SessionState) : SessionState :=
  { s with
    messages := []
    start_chat := false
    thread_id := none
    buttons_shown := false
    assistant_is_typing := false
    question_count := 0
    resume_text := ""
    job_description_text := ""
    job_type := ""
    job_url := "" }

/-- Outcome of `safe_api_call` (app7.py lines 46-53).  `success` models a
normal return, `apiError attempts last` models `raise APIError(...)` whose
message carries `MAX_RETRIES` and the string of the last underlying error,
and `noResult` models the Python function falling off the end of the `for`
loop (returning `None`); the proofs show this branch is unreachable. -/
inductive RetryOutcome (α : Type) where
  | success (a : α)
  | apiError (attempts : Nat) (last : String)
  | noResult
deriving DecidableEq, Repr

/-- Loop body of `safe_api_call`: `attempt` is the Python loop variable,
`remaining` the number of iterations `range(MAX_RETRIES)` still has
(so `attempt + remaining = MAX_RETRIES` on entry from `safe_api_call`).
The wrapped operation is modelled as a function from the attempt index to
that attempt's outcome, an `Except.error` being a transient
`openai.error.OpenAIError`.  Besides the outcome we return the number of
invocations of the operation and the list of sleep durations performed,
in order. -/
def safe_api_go (f : Nat → Except String α) : Nat → Nat → RetryOutcome α × Nat × List Nat
  | _, 0 => (RetryOutcome.noResult, 0, [])
  | attempt, remaining + 1 =>
    match f attempt with
    | Except.ok a => (RetryOutcome.success a, 1, [])
    | Except.error e =>
      if attempt = MAX_RETRIES - 1 then
        (RetryOutcome.apiError MAX_RETRIES e, 1, [])
      else
        let r := safe_api_go f (attempt + 1) remaining
        (r.1, r.2.1 + 1, RETRY_DELAY :: r.2.2)

/-- `safe_api_call` (app7.py lines 46-53): `for attempt in range(MAX_RETRIES)`. -/
def safe_api_call (f : Nat → Except String α) : RetryOutcome α × Nat × List Nat :=
  safe_api_go f 0 MAX_RETRIES

/-- Run statuses of the remote service (spec section 3; the code compares
against the literal string completed at app7.py line 340). -/
inductive RunStatus where
  | queued
  | in_progress
  | completed
  | failed
  | cancelled
  | expired
deriving DecidableEq, Repr

/-- The run object returned by `create_run` / `get_run_status`:
an identifier and a status. -/
structure RunInfo where
  id : String
  status : RunStatus
deriving DecidableEq, Repr

/-- One element of the `get_messages` listing: the producing run's id, the
role, and the text content (`message.content[0].text.value` in the code). -/
structure ThreadMessage where
  run_id : String
  role : String
  content : String
deriving DecidableEq, Repr

/-- Outcomes of the remote calls made by `run_assistant` and the chat
handlers, each already wrapped by `safe_api_call`: an `Except.error msg`
is the `APIError` raised after exhausted retries.  `run_status_result n`
is the result of the n-th `get_run_status` retrieval of this run; per the
remote contract (spec section 6, `getRunStatus(threadId, runId) ->
\x7brunId, status\x7d`) a successful retrieval returns the queried run id,
so only the status is environment-supplied. -/
structure RemoteEnv where
  create_message_result : Except String Unit
  create_run_result : Except String RunInfo
  run_status_result : Nat → Except String RunStatus
  list_messages_result : Except String (List ThreadMessage)

/-- How the polling loop of `run_assistant` (app7.py lines 340-342) was
left: `done` when `run.status == completed` was observed, `raised` when
a `get_run_status` call raised `APIError`, `fuelOut` when the loop was
still running after the given amount of fuel (at every fuel value this
models the loop never terminating). -/
inductive LoopExit where
  | done
  | raised (msg : String)
  | fuelOut
deriving DecidableEq, Repr

/-- Trace of the polling loop: the run statuses examined by the loop
condition, in order, and the number of `time.sleep(1)` calls performed. -/
structure LoopTrace where
  obs : List RunStatus
  sleeps : Nat
deriving DecidableEq, Repr

/-- The `while run.status != completed` loop of app7.py lines 340-342,
with explicit fuel bounding how many `sleep`-and-retrieve iterations we
unfold. `st` is the status held by the current `run` object (initially the
one returned by `create_run`); `i` indexes the retrievals. -/
def pollLoop (poll : Nat → Except String RunStatus) :
    Nat → Nat → RunStatus → LoopExit × LoopTrace
  | 0, _, st =>
    if st = RunStatus.completed then (LoopExit.done, ⟨[st], 0⟩)
    else (LoopExit.fuelOut, ⟨[st], 0⟩)
  | fuel + 1, i, st =>
    if st = RunStatus.completed then (LoopExit.done, ⟨[st], 0⟩)
    else
      match poll i with
      | Except.error msg => (LoopExit.raised msg, ⟨[st], 1⟩)
      | Except.ok st2 =>
        let r := pollLoop poll fuel (i + 1) st2
        (r.1, ⟨st :: r.2.obs, r.2.sleeps + 1⟩)

/-- How `run_assistant` returned: `ok` is a normal return, `apiError` an
`APIError` propagating out of one of its remote calls, `stillPolling` the
polling loop still running when the fuel ran out. -/
inductive RunResult where
  | ok
  | apiError (msg : String)
  | stillPolling
deriving DecidableEq, Repr

/-- `run_assistant` (app7.py lines 335-354).  Returns the outcome, the
session state at exit (for an exception, the state as mutated when the
exception escaped), and the polling-loop trace.  The appended transcript
entries carry `message.content[0].text.value`, modelled as
`ThreadMessage.content`. -/
def run_assistant (env : RemoteEnv) (fuel : Nat) (s : SessionState) :
    RunResult × SessionState × LoopTrace :=
  match env.create_run_result with
  | Except.error msg => (RunResult.apiError msg, s, ⟨[], 0⟩)
  | Except.ok run =>
    let s1 := { s with assistant_is_typing := true }
    let pr := pollLoop env.run_status_result fuel 0 run.status
    match pr.1 with
    | LoopExit.raised msg => (RunResult.apiError msg, s1, pr.2)
    | LoopExit.fuelOut => (RunResult.stillPolling, s1, pr.2)
    | LoopExit.done =>
      match env.list_messages_result with
      | Except.error msg => (RunResult.apiError msg, s1, pr.2)
      | Except.ok msgs =>
        let assistant_messages :=
          msgs.filter fun m => m.run_id == run.id && m.role == "assistant"
        (RunResult.ok,
          { s1 with
            messages := s1.messages ++ assistant_messages.map fun m =>
              ({ role := "assistant", content := m.content } : ChatMessage)
            assistant_is_typing := false },
          pr.2)

/-- Result of one submission attempt through `chat_interface`:
`limitReached` is the quota-denial branch (which shows an error and calls
`reset_chat`), `submitted r` the branch that incremented the counter and
ran the assistant. -/
inductive SubmitStep where
  | limitReached
  | submitted (r : RunResult)
deriving DecidableEq, Repr

/-- The free-text submission handler of `chat_interface`
(app7.py lines 294-307): quota check, counter increment, optimistic
transcript append of the user message, remote `create_message`, then
`run_assistant`; at the ceiling, error message plus `reset_chat`. -/
def chat_user_submit (env : RemoteEnv) (fuel : Nat) (s : SessionState)
    (user_input : String) : SubmitStep × SessionState × LoopTrace :=
  if s.question_count < MAX_QUESTIONS_PER_SESSION then
    let s1 := { s with
      question_count := s.question_count + 1
      messages := s.messages ++ [{ role := "user", content := user_input }] }
    match env.create_message_result with
    | Except.error msg => (SubmitStep.submitted (RunResult.apiError msg), s1, ⟨[], 0⟩)
    | Except.ok _ =>
      let r := run_assistant env fuel s1
      (SubmitStep.submitted r.1, r.2)
  else
    (SubmitStep.limitReached, reset_chat s, ⟨[], 0⟩)

set_option linter.unusedVariables false in
/-- The predefined-question handler of `chat_interface`
(app7.py lines 317-333), reached once the selection guards passed: same
quota logic, appending the question `label` to the transcript while the
expanded `detail` prompt is what `create_message` sends remotely (the
remote content is not otherwise modelled). -/
def chat_predef_submit (env : RemoteEnv) (fuel : Nat) (s : SessionState)
    (label detail : String) : SubmitStep × SessionState × LoopTrace :=
  if s.question_count < MAX_QUESTIONS_PER_SESSION then
    let s1 := { s with
      question_count := s.question_count + 1
      messages := s.messages ++ [{ role := "user", content := label }] }
    match env.create_message_result with
    | Except.error msg => (SubmitStep.submitted (RunResult.apiError msg), s1, ⟨[], 0⟩)
    | Except.ok _ =>
      let r := run_assistant env fuel s1
      (SubmitStep.submitted r.1, r.2)
  else
    (SubmitStep.limitReached, reset_chat s, ⟨[], 0⟩)

/-- The early-return quota gate at the top of `main`
(app7.py lines 132-137): `state.question_count >= MAX_QUESTIONS_PER_SESSION`
blocks the chat interface entirely, offering only a reset button. -/
def main_quota_blocked (s : SessionState) : Bool :=
  decide (MAX_QUESTIONS_PER_SESSION ≤ s.question_count)

/-- Environment for `start_chat`: the outcome of `create_thread` (wrapped
by `safe_api_call`, so an `Except.error` is the propagated `APIError`) and
the remote environments seen by the two seed submissions of
`send_initial_messages`. -/
structure StartEnv where
  create_thread_result : Except String String
  seed1 : RemoteEnv
  seed2 : RemoteEnv

/-- How `start_chat` returned. -/
inductive StartResult where
  | ok
  | apiError (msg : String)
  | stillPolling
deriving DecidableEq, Repr

/-- One seed submission of `send_initial_messages` (app7.py lines 241-260):
`create_message` with a seed prompt (content sent only remotely, never
appended to `state.messages`) followed by `run_assistant`. -/
def seed_submit (env : RemoteEnv) (fuel : Nat) (s : SessionState) :
    RunResult × SessionState :=
  match env.create_message_result with
  | Except.error msg => (RunResult.apiError msg, s)
  | Except.ok _ =>
    let r := run_assistant env fuel s
    (r.1, r.2.1)

/-- The field writes at the top of `start_chat` (app7.py lines 226-230):
sets `start_chat = True`, clears `buttons_shown`, `messages`, `processing`
and `assistant_is_typing` — and nothing else; in particular
`question_count` is not written. -/
def start_reset (s : SessionState) : SessionState :=
  { s with
    start_chat := true
    buttons_shown := false
    messages := []
    processing := false
    assistant_is_typing := false }

/-- `start_chat` (app7.py lines 224-239): the initial field writes of
`start_reset`, then `create_thread`, storing the thread id, and
`send_initial_messages` (two seed submissions).  On an exception the
returned state is the state as mutated when the exception escaped. -/
def start_chat (env : StartEnv) (fuel : Nat) (s : SessionState) :
    StartResult × SessionState :=
  let s0 := start_reset s
  match env.create_thread_result with
  | Except.error msg => (StartResult.apiError msg, s0)
  | Except.ok tid =>
    let s1 := { s0 with thread_id := some tid }
    match seed_submit env.seed1 fuel s1 with
    | (RunResult.apiError msg, s2) => (StartResult.apiError msg, s2)
    | (RunResult.stillPolling, s2) => (StartResult.stillPolling, s2)
    | (RunResult.ok, s2) =>
      match seed_submit env.seed2 fuel s2 with
      | (RunResult.apiError msg, s3) => (StartResult.apiError msg, s3)
      | (RunResult.stillPolling, s3) => (StartResult.stillPolling, s3)
      | (RunResult.ok, s3) => (StartResult.ok, s3)

/-- The session-state-mutating operations of the application, used to state
invariants that hold after every operation. -/
inductive ChatEvent where
  | userSubmit (env : RemoteEnv) (fuel : Nat) (input : String)
  | predefSubmit (env : RemoteEnv) (fuel : Nat) (label detail : String)
  | startSession (env : StartEnv) (fuel : Nat)
  | exitChat
  | startNewSession

/-- State transition of each operation: the two submission handlers of
`chat_interface`, `start_chat` (the `state.processing` branch of `main`),
the Exit Chat button (app7.py lines 207-209) and the Start New Session
button of the quota gate (app7.py lines 134-136), the last two both
calling `reset_chat`. -/
def step : ChatEvent → SessionState → SessionState
  | ChatEvent.userSubmit env fuel input, s => (chat_user_submit env fuel s input).2.1
  | ChatEvent.predefSubmit env fuel label detail, s =>
      (chat_predef_submit env fuel s label detail).2.1
  | ChatEvent.startSession env fuel, s => (start_chat env fuel s).2
  | ChatEvent.exitChat, s => reset_chat s
  | ChatEvent.startNewSession, s => reset_chat s

/-- Remote environment in which every call succeeds and the run completes
immediately, producing one assistant message attributed to it. -/
def okRunEnv : RemoteEnv where
  create_message_result := Except.ok ()
  create_run_result := Except.ok { id := "run_1", status := RunStatus.completed }
  run_status_result := fun _ => Except.ok RunStatus.completed
  list_messages_result := Except.ok
    [{ run_id := "run_1", role := "assistant", content := "seed reply" }]

/-- Remote environment whose run reports status `failed` at creation and
on every retrieval — a run that reaches the non-completed terminal state
`failed` and never becomes `completed`. -/
def failedRunEnv : RemoteEnv where
  create_message_result := Except.ok ()
  create_run_result := Except.ok { id := "run_1", status := RunStatus.failed }
  run_status_result := fun _ => Except.ok RunStatus.failed
  list_messages_result := Except.ok []

/-- Remote environment in which the first `get_run_status` retrieval
raises `APIError` after exhausted retries. -/
def pollErrEnv : RemoteEnv where
  create_message_result := Except.ok ()
  create_run_result := Except.ok { id := "run_1", status := RunStatus.queued }
  run_status_result := fun _ => Except.error "API call failed after 3 attempts: boom"
  list_messages_result := Except.ok []

/-- Remote environment whose run is observed as `queued` on creation and
then `in_progress`, `in_progress`, `completed` on the three retrievals;
the thread listing holds messages of several runs and roles. -/
def seqRunEnv : RemoteEnv where
  create_message_result := Except.ok ()
  create_run_result := Except.ok { id := "run_1", status := RunStatus.queued }
  run_status_result := fun n =>
    if n < 2 then Except.ok RunStatus.in_progress else Except.ok RunStatus.completed
  list_messages_result := Except.ok
    [{ run_id := "run_1", role := "assistant", content := "answer" },
     { run_id := "run_0", role := "assistant", content := "older answer" },
     { run_id := "run_1", role := "user", content := "prompt" }]

/-- Start environment in which thread creation fails after all retries. -/
def threadFailEnv : StartEnv where
  create_thread_result := Except.error "API call failed after 3 attempts: boom"
  seed1 := okRunEnv
  seed2 := okRunEnv

/-- Start environment in which everything succeeds. -/
def okStartEnv : StartEnv where
  create_thread_result := Except.ok "thread_1"
  seed1 := okRunEnv
  seed2 := okRunEnv

/-- A session that already used one question. -/
def sOne : SessionState := { SessionState.init with question_count := 1 }

/-- A session whose question counter sits at the ceiling. -/
def sFull : SessionState :=
  { SessionState.init with question_count := MAX_QUESTIONS_PER_SESSION }

/-- A run whose current status is already `completed` makes the loop
condition fail at once: one status observation, no sleep, no retrieval. -/
theorem pollLoop_completed (poll : Nat → Except String RunStatus) (fuel i : Nat) :
    pollLoop poll fuel i RunStatus.completed =
      (LoopExit.done, ⟨[RunStatus.completed], 0⟩) := by
  cases fuel <;> simp [pollLoop]

/-- A run that reports `failed` on every retrieval keeps the loop of
`run_assistant` running at every fuel value: the loop condition compares
against `completed` only, so a non-completed terminal status never exits
the loop. -/
theorem pollLoop_failed_forever (fuel i : Nat) :
    (pollLoop (fun _ => Except.ok RunStatus.failed) fuel i RunStatus.failed).1 =
      LoopExit.fuelOut := by
  induction fuel generalizing i with
  | zero => simp [pollLoop]
  | succ n ih =>
    simp [pollLoop]
    exact ih (i + 1)

/-- Full trace of the loop on the observed status sequence
`queued, in_progress, in_progress, completed`: four status observations,
three sleeps, normal exit. -/
theorem pollLoop_seq (poll : Nat → Except String RunStatus) (fuel : Nat)
    (h0 : poll 0 = Except.ok RunStatus.in_progress)
    (h1 : poll 1 = Except.ok RunStatus.in_progress)
    (h2 : poll 2 = Except.ok RunStatus.completed)
    (hfuel : 3 ≤ fuel) :
    pollLoop poll fuel 0 RunStatus.queued =
      (LoopExit.done,
       ⟨[RunStatus.queued, RunStatus.in_progress, RunStatus.in_progress,
         RunStatus.completed], 3⟩) := by
  obtain ⟨k, rfl⟩ : ∃ k, fuel = k + 3 := ⟨fuel - 3, by omega⟩
  simp [pollLoop, h0, h1, h2, pollLoop_completed]

/-- On every exit path `run_assistant` preserves `question_count`,
`start_chat` and `thread_id`, and only ever appends transcript entries
whose role is `assistant`. -/
theorem run_assistant_state (env : RemoteEnv) (fuel : Nat) (s : SessionState) :
    ∃ tail : List ChatMessage,
      (run_assistant env fuel s).2.1.question_count = s.question_count ∧
      (run_assistant env fuel s).2.1.start_chat = s.start_chat ∧
      (run_assistant env fuel s).2.1.thread_id = s.thread_id ∧
      (run_assistant env fuel s).2.1.messages = s.messages ++ tail ∧
      tail.all (fun m => m.role == "assistant") = true := by
  unfold run_assistant
  cases h1 : env.create_run_result with
  | error m => exact ⟨[], by simp⟩
  | ok run =>
    cases h2 : (pollLoop env.run_status_result fuel 0 run.status).1 with
    | raised m => exact ⟨[], by simp [h2]⟩
    | fuelOut => exact ⟨[], by simp [h2]⟩
    | done =>
      cases h3 : env.list_messages_result with
      | error m => exact ⟨[], by simp [h2, h3]⟩
      | ok msgs =>
        refine ⟨(msgs.filter fun m => m.run_id == run.id && m.role == "assistant").map
            (fun m => ({ role := "assistant", content := m.content } : ChatMessage)),
          by simp [h2, h3], by simp [h2, h3], by simp [h2, h3], by simp [h2, h3], ?_⟩
        simp [List.all_eq_true]
        intro x y hy hrid hrole hxy
        subst hxy
        rfl

/-- `seed_submit` inherits the state discipline of `run_assistant`. -/
theorem seed_submit_state (env : RemoteEnv) (fuel : Nat) (s : SessionState) :
    ∃ tail : List ChatMessage,
      (seed_submit env fuel s).2.question_count = s.question_count ∧
      (seed_submit env fuel s).2.start_chat = s.start_chat ∧
      (seed_submit env fuel s).2.messages = s.messages ++ tail ∧
      tail.all (fun m => m.role == "assistant") = true := by
  unfold seed_submit
  cases h1 : env.create_message_result with
  | error m => exact ⟨[], by simp⟩
  | ok u =>
    obtain ⟨tail, hq, hs, _, hm, ha⟩ := run_assistant_state env fuel s
    exact ⟨tail, by simpa using hq, by simpa using hs, by simpa using hm,
      ha⟩

/-- On every exit path `start_chat` preserves `question_count`, leaves the
`start_chat` flag true, and leaves a transcript holding only
assistant-role entries (the prior transcript was cleared and only seed
replies were appended). -/
theorem start_chat_state (env : StartEnv) (fuel : Nat) (s : SessionState) :
    (start_chat env fuel s).2.question_count = s.question_count ∧
    (start_chat env fuel s).2.start_chat = true ∧
    ((start_chat env fuel s).2.messages.all fun m => m.role == "assistant") = true := by
  unfold start_chat
  cases h1 : env.create_thread_result with
  | error m => simp [start_reset]
  | ok tid =>
    obtain ⟨t1, ha1, hb1, hc1, hd1⟩ :=
      seed_submit_state env.seed1 fuel { start_reset s with thread_id := some tid }
    rcases h2 : seed_submit env.seed1 fuel { start_reset s with thread_id := some tid }
      with ⟨r2, s2⟩
    rw [h2] at ha1 hb1 hc1
    obtain ⟨t2, ha2, hb2, hc2, hd2⟩ := seed_submit_state env.seed2 fuel s2
    rcases h3 : seed_submit env.seed2 fuel s2 with ⟨r3, s3⟩
    rw [h3] at ha2 hb2 hc2
    have hq1 : s2.question_count = s.question_count := by
      simpa [start_reset] using ha1
    have hf1 : s2.start_chat = true := by simpa [start_reset] using hb1
    have hm1 : s2.messages = t1 := by simpa [start_reset] using hc1
    cases r2 with
    | ok =>
      cases r3 <;>
        · simp only [h2, h3]
          refine ⟨by simpa [hq1] using ha2, by simpa [hf1] using hb2, ?_⟩
          have hm3 : s3.messages = t1 ++ t2 := by simpa [hm1] using hc2
          rw [hm3]
          simp [List.all_append, hd1, hd2]
    | apiError m => simp [h2, hq1, hf1, hm1, hd1]
    | stillPolling => simp [h2, hq1, hf1, hm1, hd1]

/-- Counter discipline of the free-text handler: below the ceiling the
counter is incremented by exactly one (whatever the remote calls do); at
the ceiling the handler resets the session. -/
theorem chat_user_submit_count (env : RemoteEnv) (fuel : Nat)
    (s : SessionState) (input : String) :
    (s.question_count < MAX_QUESTIONS_PER_SESSION ∧
      (chat_user_submit env fuel s input).2.1.question_count = s.question_count + 1) ∨
    (¬ s.question_count < MAX_QUESTIONS_PER_SESSION ∧
      (chat_user_submit env fuel s input).2.1 = reset_chat s) := by
  by_cases hlt : s.question_count < MAX_QUESTIONS_PER_SESSION
  · left
    refine ⟨hlt, ?_⟩
    unfold chat_user_submit
    rw [if_pos hlt]
    cases hm : env.create_message_result with
    | error m => simp
    | ok u =>
      obtain ⟨t, hq, _, _, _, _⟩ := run_assistant_state env fuel
        { s with question_count := s.question_count + 1
                 messages := s.messages ++ [{ role := "user", content := input }] }
      simpa using hq
  · right
    refine ⟨hlt, ?_⟩
    unfold chat_user_submit
    rw [if_neg hlt]

/-- Counter discipline of the predefined-question handler, identical to
that of the free-text handler. -/
theorem chat_predef_submit_count (env : RemoteEnv) (fuel : Nat)
    (s : SessionState) (label detail : String) :
    (s.question_count < MAX_QUESTIONS_PER_SESSION ∧
      (chat_predef_submit env fuel s label detail).2.1.question_count = s.question_count + 1) ∨
    (¬ s.question_count < MAX_QUESTIONS_PER_SESSION ∧
      (chat_predef_submit env fuel s label detail).2.1 = reset_chat s) := by
  by_cases hlt : s.question_count < MAX_QUESTIONS_PER_SESSION
  · left
    refine ⟨hlt, ?_⟩
    unfold chat_predef_submit
    rw [if_pos hlt]
    cases hm : env.create_message_result with
    | error m => simp
    | ok u =>
      obtain ⟨t, hq, _, _, _, _⟩ := run_assistant_state env fuel
        { s with question_count := s.question_count + 1
                 messages := s.messages ++ [{ role := "user", content := label }] }
      simpa using hq
  · right
    refine ⟨hlt, ?_⟩
    unfold chat_predef_submit
    rw [if_neg hlt]

/-- Claim C3: the retry executor invokes the wrapped operation at most
MAX_RETRIES (3) times and sleeps a fixed RETRY_DELAY between consecutive
attempts (exactly one fewer sleep than invocations); an operation failing
transiently twice and succeeding on the third attempt has its success
result returned after exactly 3 invocations (it is not invoked a fourth
time); and an operation failing transiently on all 3 attempts raises an
error carrying the attempt count (MAX_RETRIES) and the last underlying
error. -/
theorem retry_executor_spec {α : Type} (f : Nat → Except String α)
    (g k : Nat → Except String Nat) (a : Nat) (e0 e1 d0 d1 d2 : String)
    (hg0 : g 0 = Except.error e0) (hg1 : g 1 = Except.error e1)
    (hg2 : g 2 = Except.ok a)
    (hk0 : k 0 = Except.error d0) (hk1 : k 1 = Except.error d1)
    (hk2 : k 2 = Except.error d2) :
    (safe_api_call f).2.1 ≤ MAX_RETRIES ∧
    (safe_api_call f).2.2 = List.replicate ((safe_api_call f).2.1 - 1) RETRY_DELAY ∧
    safe_api_call g = (RetryOutcome.success a, 3, [RETRY_DELAY, RETRY_DELAY]) ∧
    safe_api_call k =
      (RetryOutcome.apiError MAX_RETRIES d2, 3, [RETRY_DELAY, RETRY_DELAY]) := by
  refine ⟨?_, ?_, ?_, ?_⟩
  · rcases h0 : f 0 with e | b <;> rcases h1 : f 1 with e | b <;>
      rcases h2 : f 2 with e | b <;>
        simp [safe_api_call, safe_api_go, MAX_RETRIES, h0, h1, h2]
  · rcases h0 : f 0 with e | b <;> rcases h1 : f 1 with e | b <;>
      rcases h2 : f 2 with e | b <;>
        simp [safe_api_call, safe_api_go, MAX_RETRIES, RETRY_DELAY, h0, h1, h2]
  · simp [safe_api_call, safe_api_go, MAX_RETRIES, hg0, hg1, hg2]
  · simp [safe_api_call, safe_api_go, MAX_RETRIES, hk0, hk1, hk2]

/-- Witness for `retry_executor_spec` at concrete operations: one that
always succeeds, one that fails twice then succeeds with 7, one that fails
on every attempt. -/
theorem retry_executor_spec_witness :
    (safe_api_call (fun _ => (Except.ok 0 : Except String Nat))).2.1 ≤ MAX_RETRIES ∧
    (safe_api_call (fun _ => (Except.ok 0 : Except String Nat))).2.2 =
      List.replicate
        ((safe_api_call (fun _ => (Except.ok 0 : Except String Nat))).2.1 - 1)
        RETRY_DELAY ∧
    safe_api_call (fun n => if n = 2 then Except.ok 7 else Except.error "transient") =
      (RetryOutcome.success 7, 3, [RETRY_DELAY, RETRY_DELAY]) ∧
    safe_api_call (fun n => (Except.error (toString n) : Except String Nat)) =
      (RetryOutcome.apiError MAX_RETRIES "2", 3, [RETRY_DELAY, RETRY_DELAY]) :=
  retry_executor_spec (fun _ => Except.ok 0)
    (fun n => if n = 2 then Except.ok 7 else Except.error "transient")
    (fun n => Except.error (toString n))
    7 "transient" "transient" "0" "1" "2" rfl rfl rfl rfl rfl rfl

/-- Claim C5: for every session state, `reset_chat` yields a session with
an empty transcript, question_count 0, no thread identifier and the
active flag false, and resetting is idempotent, so resetting an
already-reset session leaves the state unchanged. -/
theorem reset_chat_spec (s : SessionState) :
    (reset_chat s).messages = [] ∧
    (reset_chat s).question_count = 0 ∧
    (reset_chat s).thread_id = none ∧
    (reset_chat s).start_chat = false ∧
    reset_chat (reset_chat s) = reset_chat s :=
  ⟨rfl, rfl, rfl, rfl, rfl⟩

/-- Claim C10: `reset_chat` writes exactly the fields messages,
start_chat, thread_id, buttons_shown, assistant_is_typing,
question_count, resume_text, job_description_text, job_type and job_url
(to fixed initial values), and for every session state the fields
processing, job_input_method and resume_input_method are unchanged —
the result depends on the prior state only through those three
preserved fields. -/
theorem reset_chat_frame (s : SessionState) :
    (reset_chat s).processing = s.processing ∧
    (reset_chat s).job_input_method = s.job_input_method ∧
    (reset_chat s).resume_input_method = s.resume_input_method ∧
    reset_chat s =
      { messages := []
        start_chat := false
        thread_id := none
        buttons_shown := false
        assistant_is_typing := false
        question_count := 0
        resume_text := ""
        job_description_text := ""
        job_type := ""
        job_url := ""
        processing := s.processing
        job_input_method := s.job_input_method
        resume_input_method := s.resume_input_method } :=
  ⟨rfl, rfl, rfl, rfl⟩

/-- Claim C1 concerns a code bug: for a run that reports the non-completed
terminal status `failed` at creation and on every retrieval, `submit`
never raises the claimed RunTerminatedError (no such error exists in the
code).  The polling loop of `run_assistant` compares only against
`completed`, so at every fuel value the loop is still running: no
assistant entry is ever appended, and the already-appended user message
sits in the transcript of a call that never returns. -/
theorem failed_run_polls_forever (fuel : Nat) (input : String) :
    (chat_user_submit failedRunEnv fuel SessionState.init input).1 =
      SubmitStep.submitted RunResult.stillPolling ∧
    (chat_user_submit failedRunEnv fuel SessionState.init input).2.1.messages =
      [{ role := "user", content := input }] := by
  unfold chat_user_submit run_assistant
  simp [failedRunEnv, SessionState.init, MAX_QUESTIONS_PER_SESSION,
    pollLoop_failed_forever fuel 0]

/-- Claim C2 is refuted at this input: with thread creation failing after
all retries and a freshly initialised session, `start_chat` raises the
retry-exhaustion error but the session does NOT remain inactive — the
active flag is true afterwards, because it is set before thread creation
is attempted. -/
theorem session_active_after_thread_failure :
    (start_chat threadFailEnv 0 SessionState.init).1 =
      StartResult.apiError "API call failed after 3 attempts: boom" ∧
    (start_chat threadFailEnv 0 SessionState.init).2.start_chat = true :=
  ⟨rfl, rfl⟩

/-- Claim C2 as amended: if remote thread creation fails after all
retries, `start` fails with the propagated retry-exhaustion error (the
spec's SessionInitError), having already cleared the transcript and kept
the prior thread identifier and question count — but the session does not
remain inactive: the active flag is true after the failure, because
`start_chat = True` is assigned before thread creation is attempted. -/
theorem start_thread_failure_state (env : StartEnv) (fuel : Nat)
    (s : SessionState) (msg : String)
    (h : env.create_thread_result = Except.error msg) :
    (start_chat env fuel s).1 = StartResult.apiError msg ∧
    (start_chat env fuel s).2.start_chat = true ∧
    (start_chat env fuel s).2.messages = [] ∧
    (start_chat env fuel s).2.thread_id = s.thread_id ∧
    (start_chat env fuel s).2.question_count = s.question_count := by
  unfold start_chat
  simp [h, start_reset]

/-- Witness for `start_thread_failure_state`: a failing thread creation
from a session that had already used one question. -/
theorem start_thread_failure_state_witness :
    (start_chat threadFailEnv 0 sOne).1 =
      StartResult.apiError "API call failed after 3 attempts: boom" ∧
    (start_chat threadFailEnv 0 sOne).2.start_chat = true ∧
    (start_chat threadFailEnv 0 sOne).2.messages = [] ∧
    (start_chat threadFailEnv 0 sOne).2.thread_id = none ∧
    (start_chat threadFailEnv 0 sOne).2.question_count = 1 := by
  have h := start_thread_failure_state threadFailEnv 0 sOne
    "API call failed after 3 attempts: boom" rfl
  simpa using h

/-- Claim C9 is refuted at this input: when the first status retrieval
raises after exhausted retries, `run_assistant` exits with the error
while `assistant_is_typing` is still true — the flag is not set back to
false on this failing exit path. -/
theorem typing_flag_stuck_on_poll_error :
    (run_assistant pollErrEnv 1 SessionState.init).1 =
      RunResult.apiError "API call failed after 3 attempts: boom" ∧
    (run_assistant pollErrEnv 1 SessionState.init).2.1.assistant_is_typing = true :=
  ⟨rfl, rfl⟩

/-- Claim C9 as amended: once a run was created, `assistant_is_typing` is
set true for the polling loop's duration and set back to false on the
successful exit path; on every exit path that fails after the flag was
set (an error from status retrieval or message listing, or the loop
still polling) the flag remains true — there is no release on failure. -/
theorem typing_flag_exit_paths (env : RemoteEnv) (fuel : Nat)
    (s : SessionState) (run : RunInfo) (msg : String)
    (hrun : env.create_run_result = Except.ok run) :
    ((run_assistant env fuel s).1 = RunResult.ok →
      (run_assistant env fuel s).2.1.assistant_is_typing = false) ∧
    ((run_assistant env fuel s).1 = RunResult.apiError msg →
      (run_assistant env fuel s).2.1.assistant_is_typing = true) ∧
    ((run_assistant env fuel s).1 = RunResult.stillPolling →
      (run_assistant env fuel s).2.1.assistant_is_typing = true) := by
  unfold run_assistant
  simp only [hrun]
  cases h2 : (pollLoop env.run_status_result fuel 0 run.status).1 with
  | raised m => simp [h2]
  | fuelOut => simp [h2]
  | done =>
    cases h3 : env.list_messages_result with
    | error m => simp [h2, h3]
    | ok msgs => simp [h2, h3]

/-- Witness for `typing_flag_exit_paths`: the failing retrieval leaves the
flag raised in a session that had already used one question. -/
theorem typing_flag_exit_paths_witness :
    (run_assistant pollErrEnv 2 sOne).1 =
      RunResult.apiError "API call failed after 3 attempts: boom" ∧
    (run_assistant pollErrEnv 2 sOne).2.1.assistant_is_typing = true := by
  have h := typing_flag_exit_paths pollErrEnv 2 sOne
    { id := "run_1", status := RunStatus.queued }
    "API call failed after 3 attempts: boom" rfl
  exact ⟨rfl, h.2.1 rfl⟩

/-- Claim C6 is refuted at this input: starting from a session whose
question_count is 1, a fully successful `start_chat` (thread created,
both seeds submitted and completed) leaves question_count at 1, not 0 —
`start_chat` never writes the counter. -/
theorem start_does_not_clear_counter :
    (start_chat okStartEnv 0 sOne).1 = StartResult.ok ∧
    (start_chat okStartEnv 0 sOne).2.question_count = 1 :=
  ⟨rfl, rfl⟩

/-- Claim C6 as amended: `start` clears the prior transcript and flags
before seeding — afterwards the transcript holds only assistant-role
entries (the seed runs' replies) and the active flag is true — and the
two seed submissions are exempt from the quota, but `question_count` is
not cleared: after `start` (in particular after a successful one) it
equals its value before the call, not necessarily 0. -/
theorem start_success_state (env : StartEnv) (fuel : Nat) (s : SessionState) :
    (start_chat env fuel s).2.question_count = s.question_count ∧
    (start_chat env fuel s).2.start_chat = true ∧
    ((start_chat env fuel s).2.messages.all fun m => m.role == "assistant") = true :=
  start_chat_state env fuel s

/-- Claim C7: a successful `submit` appends exactly one user-role entry
followed by zero-or-more assistant-role entries, in that relative order;
each appended assistant entry comes from a thread message whose producing
run_id equals the id of the run this submit created — a run that reached
status completed (the loop exited through `done`). -/
theorem submit_success_transcript (env : RemoteEnv) (fuel : Nat)
    (s : SessionState) (input rid : String) (st0 : RunStatus)
    (msgs : List ThreadMessage)
    (hq : s.question_count < MAX_QUESTIONS_PER_SESSION)
    (hmsg : env.create_message_result = Except.ok ())
    (hrun : env.create_run_result = Except.ok { id := rid, status := st0 })
    (hdone : (pollLoop env.run_status_result fuel 0 st0).1 = LoopExit.done)
    (hlist : env.list_messages_result = Except.ok msgs) :
    (chat_user_submit env fuel s input).1 = SubmitStep.submitted RunResult.ok ∧
    (chat_user_submit env fuel s input).2.1.messages =
      s.messages ++ { role := "user", content := input } ::
        ((msgs.filter fun m => m.run_id == rid && m.role == "assistant").map
          fun m => ({ role := "assistant", content := m.content } : ChatMessage)) := by
  unfold chat_user_submit run_assistant
  rw [if_pos hq]
  simp [hmsg, hrun, hdone, hlist]

/-- Witness for `submit_success_transcript`: a fresh session, a run that
is already completed, and a listing with one assistant message of that
run. -/
theorem submit_success_transcript_witness :
    (chat_user_submit okRunEnv 0 SessionState.init "hi").1 =
      SubmitStep.submitted RunResult.ok ∧
    (chat_user_submit okRunEnv 0 SessionState.init "hi").2.1.messages =
      [{ role := "user", content := "hi" },
       { role := "assistant", content := "seed reply" }] := by
  have h := submit_success_transcript okRunEnv 0 SessionState.init "hi" "run_1"
    RunStatus.completed
    [{ run_id := "run_1", role := "assistant", content := "seed reply" }]
    (by decide) rfl rfl rfl rfl
  refine ⟨h.1, ?_⟩
  rw [h.2]
  decide

/-- Claim C8: for a run whose observed status sequence is queued,
in_progress, in_progress, completed, `submit` examines the run status
exactly 4 times — the status of the creation response plus three
retrievals — with one time-unit of sleep between consecutive
observations (3 sleeps), and then appends exactly the assistant messages
whose producing run identifier equals this run's identifier. -/
theorem submit_polls_four_times (env : RemoteEnv) (fuel : Nat)
    (s : SessionState) (rid : String) (msgs : List ThreadMessage)
    (hrun : env.create_run_result =
      Except.ok { id := rid, status := RunStatus.queued })
    (h0 : env.run_status_result 0 = Except.ok RunStatus.in_progress)
    (h1 : env.run_status_result 1 = Except.ok RunStatus.in_progress)
    (h2 : env.run_status_result 2 = Except.ok RunStatus.completed)
    (hlist : env.list_messages_result = Except.ok msgs)
    (hfuel : 3 ≤ fuel) :
    (run_assistant env fuel s).2.2.obs =
      [RunStatus.queued, RunStatus.in_progress, RunStatus.in_progress,
       RunStatus.completed] ∧
    (run_assistant env fuel s).2.2.obs.length = 4 ∧
    (run_assistant env fuel s).2.2.sleeps = 3 ∧
    (run_assistant env fuel s).1 = RunResult.ok ∧
    (run_assistant env fuel s).2.1.messages =
      s.messages ++
        ((msgs.filter fun m => m.run_id == rid && m.role == "assistant").map
          fun m => ({ role := "assistant", content := m.content } : ChatMessage)) := by
  have hp := pollLoop_seq env.run_status_result fuel h0 h1 h2 hfuel
  unfold run_assistant
  simp [hrun, hp, hlist]

/-- Witness for `submit_polls_four_times` on the concrete environment
`seqRunEnv` with exactly the required fuel. -/
theorem submit_polls_four_times_witness :
    (run_assistant seqRunEnv 3 SessionState.init).2.2.obs =
      [RunStatus.queued, RunStatus.in_progress, RunStatus.in_progress,
       RunStatus.completed] ∧
    (run_assistant seqRunEnv 3 SessionState.init).2.2.obs.length = 4 ∧
    (run_assistant seqRunEnv 3 SessionState.init).2.2.sleeps = 3 ∧
    (run_assistant seqRunEnv 3 SessionState.init).1 = RunResult.ok ∧
    (run_assistant seqRunEnv 3 SessionState.init).2.1.messages =
      [{ role := "assistant", content := "answer" }] := by
  have h := submit_polls_four_times seqRunEnv 3 SessionState.init "run_1"
    [{ run_id := "run_1", role := "assistant", content := "answer" },
     { run_id := "run_0", role := "assistant", content := "older answer" },
     { run_id := "run_1", role := "user", content := "prompt" }]
    rfl rfl rfl rfl rfl (by decide)
  refine ⟨h.1, h.2.1, h.2.2.1, h.2.2.2.1, ?_⟩
  rw [h.2.2.2.2]
  decide

/-- Claim C4: after every operation the counter satisfies
0 ≤ question_count ≤ MAX_QUESTIONS_PER_SESSION; every operation either
leaves question_count non-decreasing or is a session reset (so within a
session the counter is monotone and can only leave the ceiling through
`reset_chat`); and once question_count equals the ceiling, both
submission handlers deny — the denial itself invoking `reset_chat` — and
the quota gate of `main` blocks the chat interface until reset. -/
theorem quota_invariant (e : ChatEvent) (env : RemoteEnv) (fuel : Nat)
    (input label detail : String) (s : SessionState)
    (hs : s.question_count ≤ MAX_QUESTIONS_PER_SESSION) :
    (0 ≤ (step e s).question_count ∧
      (step e s).question_count ≤ MAX_QUESTIONS_PER_SESSION) ∧
    (s.question_count ≤ (step e s).question_count ∨ step e s = reset_chat s) ∧
    (s.question_count = MAX_QUESTIONS_PER_SESSION →
      (chat_user_submit env fuel s input).1 = SubmitStep.limitReached ∧
      (chat_user_submit env fuel s input).2.1 = reset_chat s ∧
      (chat_predef_submit env fuel s label detail).1 = SubmitStep.limitReached ∧
      (chat_predef_submit env fuel s label detail).2.1 = reset_chat s ∧
      main_quota_blocked s = true) := by
  refine ⟨⟨Nat.zero_le _, ?_⟩, ?_, ?_⟩
  · cases e with
    | userSubmit env2 f2 inp =>
      rcases chat_user_submit_count env2 f2 s inp with ⟨hlt, hc⟩ | ⟨hge, heq⟩
      · simp only [step, hc]; omega
      · simp [step, heq, reset_chat]
    | predefSubmit env2 f2 lb dt =>
      rcases chat_predef_submit_count env2 f2 s lb dt with ⟨hlt, hc⟩ | ⟨hge, heq⟩
      · simp only [step, hc]; omega
      · simp [step, heq, reset_chat]
    | startSession env2 f2 =>
      have hc := (start_chat_state env2 f2 s).1
      simp only [step, hc]; exact hs
    | exitChat => simp [step, reset_chat]
    | startNewSession => simp [step, reset_chat]
  · cases e with
    | userSubmit env2 f2 inp =>
      rcases chat_user_submit_count env2 f2 s inp with ⟨hlt, hc⟩ | ⟨hge, heq⟩
      · left; simp only [step, hc]; omega
      · right; simpa [step] using heq
    | predefSubmit env2 f2 lb dt =>
      rcases chat_predef_submit_count env2 f2 s lb dt with ⟨hlt, hc⟩ | ⟨hge, heq⟩
      · left; simp only [step, hc]; omega
      · right; simpa [step] using heq
    | startSession env2 f2 =>
      left
      have hc := (start_chat_state env2 f2 s).1
      simp only [step, hc]; exact Nat.le_refl _
    | exitChat => right; rfl
    | startNewSession => right; rfl
  · intro hmax
    have hnlt : ¬ s.question_count < MAX_QUESTIONS_PER_SESSION := by omega
    refine ⟨?_, ?_, ?_, ?_, ?_⟩
    · unfold chat_user_submit; rw [if_neg hnlt]
    · unfold chat_user_submit; rw [if_neg hnlt]
    · unfold chat_predef_submit; rw [if_neg hnlt]
    · unfold chat_predef_submit; rw [if_neg hnlt]
    · simp [main_quota_blocked, hmax]

/-- Witness for `quota_invariant` at a session sitting at the ceiling:
the Exit Chat reset keeps the invariant, both submission handlers deny
and reset, and the main gate blocks. -/
theorem quota_invariant_witness :
    ((step ChatEvent.exitChat sFull).question_count ≤ MAX_QUESTIONS_PER_SESSION) ∧
    (chat_user_submit okRunEnv 0 sFull "one more question").1 =
      SubmitStep.limitReached ∧
    (chat_user_submit okRunEnv 0 sFull "one more question").2.1 = reset_chat sFull ∧
    (chat_predef_submit okRunEnv 0 sFull "label" "detail").1 =
      SubmitStep.limitReached ∧
    main_quota_blocked sFull = true := by
  have h := quota_invariant ChatEvent.exitChat okRunEnv 0
    "one more question" "label" "detail" sFull (by decide)
  have h3 := h.2.2 rfl
  exact ⟨h.1.2, h3.1, h3.2.1, h3.2.2.1, h3.2.2.2.2⟩

end App7
